import Mathlib

/-!
Shallow embedding of `faultless` (src/faultless/__init__.py).

The library forks a child process to run a function, lets the child write its
pickled outcome through one of three transports (shared-memory buffer, socket
pair, or none), waits for the child, classifies the raw wait status, and either
returns the decoded value, re-raises the decoded exception, or raises an
`Interrupt` / `SignalInterrupt` / `SegmentationFault`.

Modelling conventions:

* pickling is an abstract `Codec` (an encode/decode pair with a round-trip law);
* a call's child-side behaviour is a `Behavior`: the function returns a value,
  raises an ordinary `Exception`, terminates the process image directly with a
  given code, raises a `BaseException` outside `Exception` (uncaught by the
  wrappers' `except Exception`, so the interpreter exits with the given status),
  or is killed by a signal;
* an exception escaping the forked child uncaught makes the interpreter exit
  with status 1 (so raw wait status 256), the standard behaviour when no caller
  frame catches it;
* raw Linux wait statuses: low 7 bits = terminating signal (0 for normal exit),
  bit 7 = core-dump flag, bits 8..15 = exit code;
* the socket pair is modelled as an unbounded buffer: the child's sends
  complete before it exits, and the parent's non-blocking drain (which runs
  after `os.wait`) sees every byte;
* the shared-memory region has exactly the requested `size + size_length`
  bytes and is zero-initialised, as a fresh region is;
* the parent's side effects (gc.freeze/unfreeze, fork, wait, payload read,
  unlink) are recorded as an event trace, with `try/finally` rendered by
  appending the finally-block's events on every branch.
-/

set_option maxRecDepth 100000

namespace Faultless

/-- Signal number of SIGSEGV on Linux, the platform's memory-violation signal. -/
def SIGSEGV : Nat := 11

/-- Model of `WTERMSIG` of a raw wait status: its low 7 bits. -/
def WTERMSIG (status : Nat) : Nat := status % 128

/-- Model of `WEXITSTATUS` of a raw wait status: bits 8..15. -/
def WEXITSTATUS (status : Nat) : Nat := status / 256 % 256

/-- Model of `WIFEXITED`: the child exited normally (terminating signal field is 0). -/
def WIFEXITED (status : Nat) : Bool := WTERMSIG status == 0

/-- Model of `os.WCOREDUMP` applied to a Python int: the C macro tests bit 7
(`status & 0x80`) of the value's two's-complement representation, so on a
negative argument it looks at bit 7 of `status mod 256`. -/
def os_WCOREDUMP (status : Int) : Bool := decide (128 ≤ status % 256)

/-- Model of `os.waitstatus_to_exitcode`: the exit code for a normal exit, minus the
terminating signal for a signal death.  (Stop statuses cannot come out of a
plain `os.wait`.) -/
def waitstatus_to_exitcode (status : Nat) : Int :=
  if WIFEXITED status then (WEXITSTATUS status : Int)
  else -(WTERMSIG status : Int)

/-- Which class of the `Interrupt` hierarchy an exception instance belongs to:
`Interrupt` itself, `SignalInterrupt`, or `SegmentationFault`. -/
inductive InterruptKind where
  | base
  | signal
  | segv
deriving DecidableEq

/-- Model of `_interrupt`: classify a nonzero exit code into an `Interrupt`-family
exception (kind plus the `exit_code` attribute it carries); `none` models the
`RuntimeError` raised on a zero status. -/
def interruptOf (exit_code : Int) : Option (InterruptKind × Int) :=
  if exit_code = -(SIGSEGV : Int) then some (.segv, -(SIGSEGV : Int))
  else if exit_code < 0 then some (.signal, exit_code)
  else if exit_code ≠ 0 then some (.base, exit_code)
  else none

/-- Model of `SignalInterrupt.__str__`: builds `f"{name} caught: {desc}"` and appends
`" (core dumped)"` when `os.WCOREDUMP(self.exit_code)` is true — note the code
passes the (negative) exit code, not the raw wait status.  The platform signal
table lookup (`signal.Signals(sig).name`, `signal.strsignal(sig)`) is passed in
as the `name` and `desc` strings. -/
def signalInterruptStr (name desc : String) (exit_code : Int) : String :=
  let msg := name ++ " caught: " ++ desc
  if os_WCOREDUMP exit_code then msg ++ " (core dumped)" else msg

/-- An abstract pickle codec: `pickle.dumps` / `pickle.loads` restricted to a
type of picklable objects, with the round-trip law. -/
structure Codec (α : Type) where
  dumps : α → List Nat
  loads : List Nat → Option α
  loads_dumps : ∀ a, loads (dumps a) = some a

/-- What the wrapped function does when the child runs it. -/
inductive Behavior (Obj : Type) where
  /-- returns the value `v` -/
  | ret (v : Obj)
  /-- raises an ordinary `Exception` `e` (picklable) -/
  | exc (e : Obj)
  /-- terminates the process image directly with exit code `code`
  (e.g. `os._exit(code)`), before any transport write -/
  | exit (code : Nat)
  /-- raises a `BaseException` that is not an `Exception`; the wrappers'
  `except Exception` does not catch it, so the child interpreter dies with
  exit status `code` (1 for an ordinary uncaught error, `n` for a
  `SystemExit(n)`) without writing to the transport -/
  | baseExc (code : Nat)
  /-- the child is killed by signal `sig`, with core-dump flag `core`,
  before writing to the transport -/
  | signal (sig : Nat) (core : Bool)

/-- Behaviors in which the child never reaches the transport write. -/
def Behavior.noWrite {Obj : Type} : Behavior Obj → Bool
  | .ret _ => false
  | .exc _ => false
  | _ => true

/-- The `(is_error, payload)` pair the child would transport, when there is
one. -/
def Behavior.payloadOf {Obj : Type} : Behavior Obj → Option (Bool × Obj)
  | .ret v => some (false, v)
  | .exc e => some (true, e)
  | _ => none

/-- Helper for `bitLength`: repeated halving with structural fuel (the fuel
argument only makes the recursion structural; `n` itself is enough fuel). -/
def bitLengthAux : Nat → Nat → Nat
  | 0, _ => 0
  | fuel + 1, n => if n = 0 then 0 else bitLengthAux fuel (n / 2) + 1

/-- Python `n.bit_length()`: the number of binary digits of `n`, 0 for 0. -/
def bitLength (n : Nat) : Nat := bitLengthAux n n

/-- The `size_length = math.ceil(size.bit_length() / 8)` computation of `_wrapper_shared_mem`. -/
def byteLen (n : Nat) : Nat := (bitLength n + 7) / 8

/-- The `w` little-endian bytes of `n` (the digits written by
`int.to_bytes(w, "little")`). -/
def leBytes : Nat → Nat → List Nat
  | 0, _ => []
  | w + 1, n => n % 256 :: leBytes w (n / 256)

/-- Model of `int.to_bytes(w, "little")`: `none` models the `OverflowError` raised when
`n` does not fit in `w` bytes. -/
def toBytesLE (w n : Nat) : Option (List Nat) :=
  if n < 256 ^ w then some (leBytes w n) else none

/-- Model of `int.from_bytes(bs, "little")`. -/
def fromBytesLE : List Nat → Nat
  | [] => 0
  | b :: bs => b + 256 * fromBytesLE bs

/-- Memoryview slice assignment `buf[start : start + data.length] = data`
(callers establish that the slice fits, as Python raises `ValueError`
otherwise). -/
def setSlice {α : Type} (buf : List α) (start : Nat) (data : List α) : List α :=
  buf.take start ++ data ++ buf.drop (start + data.length)

/-- The child's half of `_wrapper_shared_mem` for a behavior that reaches the
write: pickle `(is_error, payload)`, write the little-endian length into the
first `size_length` bytes, then the data after it, then `os._exit(0)`.
Returns the region contents and the raw wait status.  An `OverflowError` from
`to_bytes` (length needs more than `size_length` bytes) or a `ValueError` from
the slice assignment (data longer than the region) escapes uncaught, so the
child dies with exit status 1 (raw status 256). -/
def writeOutcome {Obj : Type} (P : Codec (Bool × Obj)) (size : Nat)
    (res : Bool × Obj) : List Nat × Nat :=
  let w := byteLen size
  let buf0 : List Nat := List.replicate (size + w) 0
  let data := P.dumps res
  match toBytesLE w data.length with
  | none => (buf0, 256)
  | some pfx =>
    let buf1 := setSlice buf0 0 pfx
    if data.length ≤ size then (setSlice buf1 w data, 0) else (buf1, 256)

/-- Region contents and raw wait status produced by the child under the
shared-memory transport. -/
def childSharedMem {Obj : Type} (P : Codec (Bool × Obj)) (size : Nat) :
    Behavior Obj → List Nat × Nat
  | .ret v => writeOutcome P size (false, v)
  | .exc e => writeOutcome P size (true, e)
  | .exit n => (List.replicate (size + byteLen size) 0, 256 * (n % 256))
  | .baseExc n => (List.replicate (size + byteLen size) 0, 256 * (n % 256))
  | .signal s c => (List.replicate (size + byteLen size) 0, (if c then 128 else 0) + s)

/-- Bytes the child sends over the socket pair (`b"\x00"` or `b"\x01"` flag,
then the pickled payload) and the raw wait status. -/
def childSocket {Obj : Type} (Q : Codec Obj) : Behavior Obj → List Nat × Nat
  | .ret v => (0 :: Q.dumps v, 0)
  | .exc e => (1 :: Q.dumps e, 0)
  | .exit n => ([], 256 * (n % 256))
  | .baseExc n => ([], 256 * (n % 256))
  | .signal s c => ([], (if c then 128 else 0) + s)

/-- How a call of the wrapped function ends in the parent. -/
inductive PyResult (Obj : Type) where
  /-- the wrapper returns `v` -/
  | value (v : Obj)
  /-- the decoded child exception is re-raised (`raise obj`) -/
  | raised (e : Obj)
  /-- an `Interrupt`-family exception with the given kind and `exit_code` -/
  | interrupt (kind : InterruptKind) (exit_code : Int)
  /-- decoding failed in the parent (`pickle.loads` raised) -/
  | unpickleError
  /-- the `RuntimeError("attempted to raise zero status ...")` from `_interrupt(0)` -/
  | runtimeError
  /-- the `none` wrapper returned `None` -/
  | noneRet
deriving DecidableEq

/-- Parent-side effects recorded while a call runs. -/
inductive Event where
  | shmCreate
  | sockCreate
  | gcFreeze
  | gcUnfreeze
  | forkChild
  | waitChild
  | recvDrain
  /-- the parent reads and decodes the transport payload -/
  | readPayload
  | shmUnlink
  | sockClose
deriving DecidableEq

/-- One call of a wrapped function: its outcome and the parent's event trace. -/
structure Run (Obj : Type) where
  res : PyResult Obj
  trace : List Event

/-- The `match` on `_interrupt`'s result, used to state (not define) what the
parent raises when it trusts only the classification. -/
def classify {Obj : Type} (status : Nat) : PyResult Obj :=
  match interruptOf (waitstatus_to_exitcode status) with
  | some ke => .interrupt ke.1 ke.2
  | none => .runtimeError

/-- Model of `_wrapper_shared_mem`'s wrapper: allocate the region, `gc.freeze`, fork,
wait; if the first byte of the region is nonzero, read the length prefix,
unpickle that many bytes after it and return or re-raise; otherwise raise
`_interrupt(exit_code)`.  The `finally` block (`gc.unfreeze(); mem.unlink()`)
runs on every path. -/
def runSharedMem {Obj : Type} (P : Codec (Bool × Obj)) (size : Nat)
    (b : Behavior Obj) : Run Obj :=
  let w := byteLen size
  let cs := childSharedMem P size b
  let buf := cs.1
  let exit_code := waitstatus_to_exitcode cs.2
  let pre : List Event := [.shmCreate, .gcFreeze, .forkChild, .waitChild]
  let post : List Event := [.gcUnfreeze, .shmUnlink]
  if buf.headD 0 ≠ 0 then
    let length := fromBytesLE (buf.take w)
    match P.loads ((buf.drop w).take length) with
    | none => ⟨.unpickleError, pre ++ [.readPayload] ++ post⟩
    | some (err, obj) =>
      ⟨if err then .raised obj else .value obj, pre ++ [.readPayload] ++ post⟩
  else
    ⟨match interruptOf exit_code with
      | some ke => .interrupt ke.1 ke.2
      | none => .runtimeError,
     pre ++ post⟩

/-- Model of `_wrapper_socket`'s wrapper: create the pair, `gc.freeze`, fork, wait,
drain the non-blocking parent end; if any bytes arrived, unpickle everything
after the first byte and re-raise it when that first byte is nonzero,
otherwise raise `_interrupt(exit_code)`.  The `finally` block runs
`gc.unfreeze()` only — neither socket is ever closed. -/
def runSocket {Obj : Type} (Q : Codec Obj) (b : Behavior Obj) : Run Obj :=
  let cs := childSocket Q b
  let exit_code := waitstatus_to_exitcode cs.2
  let pre : List Event := [.sockCreate, .gcFreeze, .forkChild, .waitChild, .recvDrain]
  let post : List Event := [.gcUnfreeze]
  match cs.1 with
  | [] =>
    ⟨match interruptOf exit_code with
      | some ke => .interrupt ke.1 ke.2
      | none => .runtimeError,
     pre ++ post⟩
  | f :: rest =>
    match Q.loads rest with
    | none => ⟨.unpickleError, pre ++ [.readPayload] ++ post⟩
    | some obj =>
      ⟨if f ≠ 0 then .raised obj else .value obj, pre ++ [.readPayload] ++ post⟩

/-- Model of `_wrapper_none`'s wrapper: `gc.freeze`, fork (the child runs the function
with no `try`, so an exception escaping it kills the child with status 1),
wait, and raise `_interrupt(exit_code)` when the exit code is nonzero,
returning `None` otherwise. -/
def runNone {Obj : Type} (b : Behavior Obj) : Run Obj :=
  let status : Nat :=
    match b with
    | .ret _ => 0
    | .exc _ => 256
    | .exit n => 256 * (n % 256)
    | .baseExc n => 256 * (n % 256)
    | .signal s c => (if c then 128 else 0) + s
  let exit_code := waitstatus_to_exitcode status
  let res : PyResult Obj :=
    if exit_code ≠ 0 then
      match interruptOf exit_code with
      | some ke => .interrupt ke.1 ke.2
      | none => .runtimeError
    else .noneRet
  ⟨res, [.gcFreeze, .forkChild, .waitChild, .gcUnfreeze]⟩

/-- Concrete picklable-object type for witnesses: raw byte lists. -/
def pairCodecL : Codec (Bool × List Nat) where
  dumps := fun p => (if p.1 then 1 else 0) :: p.2
  loads := fun bs =>
    match bs with
    | [] => none
    | f :: rest => some (f == 1, rest)
  loads_dumps := by
    rintro ⟨b, o⟩
    cases b <;> rfl

/-- Concrete codec for the socket wrapper's bare payloads. -/
def objCodecL : Codec (List Nat) where
  dumps := id
  loads := some
  loads_dumps := fun _ => rfl

lemma headD_replicate_zero (n : Nat) : (List.replicate n (0 : Nat)).headD 0 = 0 := by
  cases n <;> simp [List.replicate_succ]

lemma leBytes_length (w n : Nat) : (leBytes w n).length = w := by
  induction w generalizing n with
  | zero => rfl
  | succ w ih => simp [leBytes, ih]

lemma fromBytesLE_leBytes (w n : Nat) (h : n < 256 ^ w) :
    fromBytesLE (leBytes w n) = n := by
  induction w generalizing n with
  | zero =>
    have h1 : n < 1 := by simpa using h
    simp [leBytes, fromBytesLE]
    omega
  | succ w ih =>
    have hdiv : n / 256 < 256 ^ w := by
      rw [Nat.div_lt_iff_lt_mul (by norm_num)]
      calc n < 256 ^ (w + 1) := h
        _ = 256 ^ w * 256 := by ring
    simp [leBytes, fromBytesLE, ih _ hdiv]
    omega

lemma bitLengthAux_spec (fuel : Nat) : ∀ n : Nat, n ≤ fuel → n < 2 ^ bitLengthAux fuel n := by
  induction fuel with
  | zero =>
    intro n h
    have h0 : n = 0 := by omega
    simp [h0, bitLengthAux]
  | succ fuel ih =>
    intro n h
    by_cases h0 : n = 0
    · simp [h0, bitLengthAux]
    · have hle : n / 2 ≤ fuel := by omega
      have ihh := ih (n / 2) hle
      simp only [bitLengthAux, h0, if_false]
      have hp : 2 ^ (bitLengthAux fuel (n / 2) + 1) = 2 * 2 ^ bitLengthAux fuel (n / 2) := by
        ring
      omega

lemma bitLength_spec (n : Nat) : n < 2 ^ bitLength n := bitLengthAux_spec n n le_rfl

lemma bitLength_pos (n : Nat) (h : 1 ≤ n) : 1 ≤ bitLength n := by
  cases n with
  | zero => omega
  | succ m => simp [bitLength, bitLengthAux]

lemma lt_pow_byteLen (n : Nat) : n < 256 ^ byteLen n := by
  have h1 : n < 2 ^ bitLength n := bitLength_spec n
  have h2 : bitLength n ≤ 8 * byteLen n := by unfold byteLen; omega
  calc n < 2 ^ bitLength n := h1
    _ ≤ 2 ^ (8 * byteLen n) := Nat.pow_le_pow_right (by norm_num) h2
    _ = 256 ^ byteLen n := by rw [pow_mul]; norm_num

lemma byteLen_pos (n : Nat) (h : 1 ≤ n) : 1 ≤ byteLen n := by
  have h1 := bitLength_pos n h
  unfold byteLen
  omega

lemma drop_append_add {α : Type} (l₁ l₂ : List α) (k : Nat) :
    (l₁ ++ l₂).drop (l₁.length + k) = l₂.drop k := by
  induction l₁ with
  | nil => simp
  | cons a l ih => simp [Nat.succ_add, ih]

lemma writeOutcome_fits {Obj : Type} (P : Codec (Bool × Obj)) (size : Nat) (p : Bool × Obj)
    (hfit : (P.dumps p).length ≤ size) :
    writeOutcome P size p =
      (leBytes (byteLen size) (P.dumps p).length ++
        (P.dumps p ++ List.replicate (size - (P.dumps p).length) 0), 0) := by
  have hlt : (P.dumps p).length < 256 ^ byteLen size :=
    lt_of_le_of_lt hfit (lt_pow_byteLen size)
  unfold writeOutcome toBytesLE
  simp only [hlt, if_true, if_pos, hfit, setSlice, List.take_zero, List.nil_append,
    Nat.zero_add, leBytes_length, List.drop_replicate]
  rw [show size + byteLen size - byteLen size = size by omega]
  have h1 := @List.take_left' Nat (leBytes (byteLen size) (P.dumps p).length)
    (List.replicate size (0 : Nat)) (byteLen size) (leBytes_length (byteLen size) (P.dumps p).length)
  have h2 := drop_append_add (leBytes (byteLen size) (P.dumps p).length)
    (List.replicate size (0 : Nat)) (P.dumps p).length
  rw [leBytes_length, List.drop_replicate] at h2
  rw [h1, h2, List.append_assoc]

lemma childSharedMem_payload {Obj : Type} (P : Codec (Bool × Obj)) (size : Nat)
    (b : Behavior Obj) (p : Bool × Obj) (hp : b.payloadOf = some p) :
    childSharedMem P size b = writeOutcome P size p := by
  cases b <;> simp [Behavior.payloadOf] at hp <;> simp [childSharedMem, ← hp]

lemma headD_leBytes_append (w L : Nat) (hw : 1 ≤ w) (rest : List Nat) :
    ((leBytes w L ++ rest).headD 0) = L % 256 := by
  cases w with
  | zero => omega
  | succ w' => simp [leBytes]

lemma runSharedMem_write {Obj : Type} (P : Codec (Bool × Obj)) (size : Nat)
    (b : Behavior Obj) (p : Bool × Obj) (hp : b.payloadOf = some p)
    (hfit : (P.dumps p).length ≤ size)
    (hmod : (P.dumps p).length % 256 ≠ 0) :
    (runSharedMem P size b).res =
      if p.1 then PyResult.raised p.2 else PyResult.value p.2 := by
  have hL1 : 1 ≤ (P.dumps p).length := by omega
  have hsz : 1 ≤ size := le_trans hL1 hfit
  have hw : 1 ≤ byteLen size := byteLen_pos size hsz
  have hlt : (P.dumps p).length < 256 ^ byteLen size :=
    lt_of_le_of_lt hfit (lt_pow_byteLen size)
  have hcs : childSharedMem P size b =
      (leBytes (byteLen size) (P.dumps p).length ++
        (P.dumps p ++ List.replicate (size - (P.dumps p).length) 0), 0) := by
    rw [childSharedMem_payload P size b p hp, writeOutcome_fits P size p hfit]
  unfold runSharedMem
  rw [hcs]
  simp only [headD_leBytes_append _ _ hw]
  rw [if_pos hmod]
  rw [@List.take_left' Nat (leBytes (byteLen size) (P.dumps p).length)
        (P.dumps p ++ List.replicate (size - (P.dumps p).length) 0) (byteLen size)
        (leBytes_length _ _),
      fromBytesLE_leBytes _ _ hlt,
      @List.drop_left' Nat (leBytes (byteLen size) (P.dumps p).length)
        (P.dumps p ++ List.replicate (size - (P.dumps p).length) 0) (byteLen size)
        (leBytes_length _ _),
      @List.take_left' Nat (P.dumps p) (List.replicate (size - (P.dumps p).length) 0)
        (P.dumps p).length rfl,
      P.loads_dumps p]

lemma waitstatus_exited (n : Nat) (h : n < 256) :
    waitstatus_to_exitcode (256 * n) = (n : Int) := by
  unfold waitstatus_to_exitcode WIFEXITED WTERMSIG WEXITSTATUS
  have h1 : 256 * n % 128 = 0 := by omega
  simp [h1]
  omega

lemma waitstatus_signaled (s : Nat) (c : Bool) (h1 : 1 ≤ s) (h2 : s ≤ 126) :
    waitstatus_to_exitcode ((if c then 128 else 0) + s) = -(s : Int) := by
  unfold waitstatus_to_exitcode WIFEXITED WTERMSIG WEXITSTATUS
  have hmod : ((if c then 128 else 0) + s) % 128 = s := by cases c <;> simp <;> omega
  rw [hmod, if_neg (by simp; omega)]

lemma interruptOf_pos (n : Nat) (h : 0 < n) :
    interruptOf (n : Int) = some (.base, (n : Int)) := by
  unfold interruptOf SIGSEGV
  rw [if_neg (by omega), if_neg (by omega), if_pos (by omega)]

lemma interruptOf_sig (s : Nat) (h1 : 1 ≤ s) (hne : s ≠ 11) :
    interruptOf (-(s : Int)) = some (.signal, -(s : Int)) := by
  unfold interruptOf SIGSEGV
  rw [if_neg (by omega), if_pos (by omega)]

lemma interruptOf_segv : interruptOf (-(11 : Int)) = some (.segv, -(11 : Int)) := by decide


lemma runSharedMem_noWrite {Obj : Type} (P : Codec (Bool × Obj)) (size : Nat)
    (b : Behavior Obj) (h : b.noWrite = true) :
    (runSharedMem P size b).res = classify (childSharedMem P size b).2 ∧
    Event.readPayload ∉ (runSharedMem P size b).trace := by
  have tr : ∀ st : Nat,
      (⟨(classify st : PyResult Obj),
        [Event.shmCreate, .gcFreeze, .forkChild, .waitChild, .gcUnfreeze, .shmUnlink]⟩ : Run Obj).res
        = classify st ∧
      Event.readPayload ∉
        (⟨(classify st : PyResult Obj),
          [Event.shmCreate, .gcFreeze, .forkChild, .waitChild, .gcUnfreeze, .shmUnlink]⟩ : Run Obj).trace :=
    fun st => ⟨rfl, by simp⟩
  cases b with
  | ret v => simp [Behavior.noWrite] at h
  | exc e => simp [Behavior.noWrite] at h
  | exit n =>
    have key : runSharedMem P size (Behavior.exit n) =
        ⟨classify (256 * (n % 256)),
         [Event.shmCreate, .gcFreeze, .forkChild, .waitChild, .gcUnfreeze, .shmUnlink]⟩ := by
      simp only [runSharedMem, childSharedMem, classify]
      rw [headD_replicate_zero]
      simp
    rw [key]
    exact tr _
  | baseExc n =>
    have key : runSharedMem P size (Behavior.baseExc n) =
        ⟨classify (256 * (n % 256)),
         [Event.shmCreate, .gcFreeze, .forkChild, .waitChild, .gcUnfreeze, .shmUnlink]⟩ := by
      simp only [runSharedMem, childSharedMem, classify]
      rw [headD_replicate_zero]
      simp
    rw [key]
    exact tr _
  | signal s c =>
    have key : runSharedMem P size (Behavior.signal s c) =
        ⟨classify ((if c then 128 else 0) + s),
         [Event.shmCreate, .gcFreeze, .forkChild, .waitChild, .gcUnfreeze, .shmUnlink]⟩ := by
      simp only [runSharedMem, childSharedMem, classify]
      rw [headD_replicate_zero]
      simp
    rw [key]
    exact tr _

lemma runSocket_noWrite {Obj : Type} (Q : Codec Obj) (b : Behavior Obj)
    (h : b.noWrite = true) :
    (runSocket Q b).res = classify (childSocket Q b).2 ∧
    Event.readPayload ∉ (runSocket Q b).trace := by
  have tr : ∀ st : Nat,
      (⟨(classify st : PyResult Obj),
        [Event.sockCreate, .gcFreeze, .forkChild, .waitChild, .recvDrain, .gcUnfreeze]⟩ : Run Obj).res
        = classify st ∧
      Event.readPayload ∉
        (⟨(classify st : PyResult Obj),
          [Event.sockCreate, .gcFreeze, .forkChild, .waitChild, .recvDrain, .gcUnfreeze]⟩ : Run Obj).trace :=
    fun st => ⟨rfl, by simp⟩
  cases b with
  | ret v => simp [Behavior.noWrite] at h
  | exc e => simp [Behavior.noWrite] at h
  | exit n =>
    have key : runSocket Q (Behavior.exit n) =
        ⟨classify (256 * (n % 256)),
         [Event.sockCreate, .gcFreeze, .forkChild, .waitChild, .recvDrain, .gcUnfreeze]⟩ := by
      simp only [runSocket, childSocket, classify]
      simp
    rw [key]
    exact tr _
  | baseExc n =>
    have key : runSocket Q (Behavior.baseExc n) =
        ⟨classify (256 * (n % 256)),
         [Event.sockCreate, .gcFreeze, .forkChild, .waitChild, .recvDrain, .gcUnfreeze]⟩ := by
      simp only [runSocket, childSocket, classify]
      simp
    rw [key]
    exact tr _
  | signal s c =>
    have key : runSocket Q (Behavior.signal s c) =
        ⟨classify ((if c then 128 else 0) + s),
         [Event.sockCreate, .gcFreeze, .forkChild, .waitChild, .recvDrain, .gcUnfreeze]⟩ := by
      simp only [runSocket, childSocket, classify]
      simp
    rw [key]
    exact tr _


lemma writeOutcome_overflow {Obj : Type} (P : Codec (Bool × Obj)) (size : Nat)
    (p : Bool × Obj) (h : 256 ^ byteLen size ≤ (P.dumps p).length) :
    writeOutcome P size p = (List.replicate (size + byteLen size) 0, 256) := by
  have hn : ¬ (P.dumps p).length < 256 ^ byteLen size := by omega
  unfold writeOutcome toBytesLE
  simp [hn]

lemma writeOutcome_partial {Obj : Type} (P : Codec (Bool × Obj)) (size : Nat)
    (p : Bool × Obj) (h1 : size < (P.dumps p).length)
    (h2 : (P.dumps p).length < 256 ^ byteLen size) :
    writeOutcome P size p =
      (leBytes (byteLen size) (P.dumps p).length ++ List.replicate size 0, 256) := by
  have hn : ¬ (P.dumps p).length ≤ size := by omega
  unfold writeOutcome toBytesLE
  simp only [h2, if_true, hn, if_false, setSlice, List.take_zero, List.nil_append,
    Nat.zero_add, leBytes_length, List.drop_replicate]
  rw [show size + byteLen size - byteLen size = size by omega]

lemma runSharedMem_of_zero_head {Obj : Type} (P : Codec (Bool × Obj)) (size : Nat)
    (b : Behavior Obj) (st : Nat)
    (hcs : childSharedMem P size b = (List.replicate (size + byteLen size) 0, st)) :
    (runSharedMem P size b).res = classify st := by
  unfold runSharedMem
  rw [hcs]
  simp only []
  rw [headD_replicate_zero]
  simp [classify]

lemma runSharedMem_trace {Obj : Type} (P : Codec (Bool × Obj)) (size : Nat)
    (b : Behavior Obj) :
    (runSharedMem P size b).trace =
      [Event.shmCreate, .gcFreeze, .forkChild, .waitChild, .gcUnfreeze, .shmUnlink] ∨
    (runSharedMem P size b).trace =
      [Event.shmCreate, .gcFreeze, .forkChild, .waitChild, .readPayload, .gcUnfreeze,
        .shmUnlink] := by
  simp only [runSharedMem]
  split
  · split
    · right; simp
    · right; simp
  · left; simp

lemma runSocket_trace {Obj : Type} (Q : Codec Obj) (b : Behavior Obj) :
    (runSocket Q b).trace =
      [Event.sockCreate, .gcFreeze, .forkChild, .waitChild, .recvDrain, .gcUnfreeze] ∨
    (runSocket Q b).trace =
      [Event.sockCreate, .gcFreeze, .forkChild, .waitChild, .recvDrain, .readPayload,
        .gcUnfreeze] := by
  simp only [runSocket]
  split
  · left; simp
  · split
    · right; simp
    · right; simp

lemma runNone_trace {Obj : Type} (b : Behavior Obj) :
    (runNone b).trace = [Event.gcFreeze, .forkChild, .waitChild, .gcUnfreeze] := rfl

lemma readPayload_iff_shm {Obj : Type} (P : Codec (Bool × Obj)) (size : Nat)
    (b : Behavior Obj) :
    Event.readPayload ∈ (runSharedMem P size b).trace ↔
      (childSharedMem P size b).1.headD 0 ≠ 0 := by
  simp only [runSharedMem]
  by_cases hc : (childSharedMem P size b).1.headD 0 ≠ 0
  · rw [if_pos hc]
    split
    · exact iff_of_true (by simp) hc
    · exact iff_of_true (by simp) hc
  · rw [if_neg hc]
    exact iff_of_false (by simp) hc

lemma readPayload_iff_sock {Obj : Type} (Q : Codec Obj) (b : Behavior Obj) :
    Event.readPayload ∈ (runSocket Q b).trace ↔ (childSocket Q b).1 ≠ [] := by
  simp only [runSocket]
  rcases hcs : (childSocket Q b).1 with _ | ⟨f, rest⟩
  · exact iff_of_false (by simp) (by simp)
  · split
    · simp_all
    · split
      · exact iff_of_true (by simp) (by simp)
      · exact iff_of_true (by simp) (by simp)

/-- C1 (counterexample): the round-trip claim fails on the buffer transport as
stated.  With the default capacity 255, a value whose pickled pair takes 300
bytes makes the child die in the length-prefix conversion and the parent
raises `Interrupt(1)`; with capacity 300, a value whose pickled pair takes
exactly 256 bytes is written successfully but the low prefix byte is 0, so the
parent treats the region as unset and raises `RuntimeError`. -/
theorem c1_roundtrip_counterexample :
    (runSharedMem pairCodecL 255 (Behavior.ret (List.replicate 299 0))).res =
      PyResult.interrupt .base 1 ∧
    (runSharedMem pairCodecL 300 (Behavior.ret (List.replicate 255 0))).res =
      PyResult.runtimeError := by
  exact ⟨rfl, rfl⟩

/-- C1 (amended): a zero-argument work returning a picklable value `v` round-
trips with no error under the socket transport, and under the buffer transport
provided the pickled `(False, v)` pair fits the capacity and its length is not
a multiple of 256. -/
theorem c1_roundtrip_amended (Obj : Type) (P : Codec (Bool × Obj)) (Q : Codec Obj)
    (size : Nat) (v : Obj)
    (hfit : (P.dumps (false, v)).length ≤ size)
    (hmod : (P.dumps (false, v)).length % 256 ≠ 0) :
    (runSharedMem P size (Behavior.ret v)).res = PyResult.value v ∧
    (runSocket Q (Behavior.ret v)).res = PyResult.value v := by
  constructor
  · have h := runSharedMem_write P size (Behavior.ret v) (false, v) rfl hfit hmod
    simpa using h
  · simp [runSocket, childSocket, Q.loads_dumps]

/-- C1 (witness): the amended round-trip at capacity 8 and value `[5]`. -/
theorem c1_roundtrip_amended_witness :
    (runSharedMem pairCodecL 8 (Behavior.ret [5])).res = PyResult.value [5] ∧
    (runSocket objCodecL (Behavior.ret [5])).res = PyResult.value [5] :=
  c1_roundtrip_amended (List Nat) pairCodecL objCodecL 8 [5] (by decide) (by decide)

/-- C2 (counterexample): under the `none` transport a work raising an error is
not re-raised with the original error: the child dies with status 1 and the
parent raises `Interrupt(1)` instead. -/
theorem c2_error_reraise_counterexample :
    (runNone (Behavior.exc ([] : List Nat))).res = PyResult.interrupt .base 1 := rfl

/-- C2 (amended): a work raising a picklable error `e` re-raises the original
decoded error under the socket transport, and under the buffer transport when
the pickled `(True, e)` pair fits the capacity with length not a multiple of
256; under the `none` transport the parent instead raises `Interrupt(1)`. -/
theorem c2_error_reraise_amended (Obj : Type) (P : Codec (Bool × Obj)) (Q : Codec Obj)
    (size : Nat) (e : Obj)
    (hfit : (P.dumps (true, e)).length ≤ size)
    (hmod : (P.dumps (true, e)).length % 256 ≠ 0) :
    (runSharedMem P size (Behavior.exc e)).res = PyResult.raised e ∧
    (runSocket Q (Behavior.exc e)).res = PyResult.raised e ∧
    (runNone (Behavior.exc e)).res = PyResult.interrupt .base 1 := by
  refine ⟨?_, ?_, ?_⟩
  · have h := runSharedMem_write P size (Behavior.exc e) (true, e) rfl hfit hmod
    simpa using h
  · simp [runSocket, childSocket, Q.loads_dumps]
  · have h1 : waitstatus_to_exitcode 256 = 1 := by decide
    have h2 : interruptOf 1 = some (.base, 1) := by decide
    simp [runNone, h1, h2]

/-- C2 (witness): the amended re-raise law at capacity 8 and error `[7]`. -/
theorem c2_error_reraise_amended_witness :
    (runSharedMem pairCodecL 8 (Behavior.exc [7])).res = PyResult.raised [7] ∧
    (runSocket objCodecL (Behavior.exc [7])).res = PyResult.raised [7] ∧
    (runNone (Behavior.exc ([7] : List Nat))).res = PyResult.interrupt .base 1 :=
  c2_error_reraise_amended (List Nat) pairCodecL objCodecL 8 [7] (by decide) (by decide)

/-- C3 (counterexample): with the default capacity 255, a work whose pickled
outcome takes 300 bytes does not fail with any explicit overflow error kind —
no such kind exists in the code — but with `Interrupt(1)`: the child dies in
the length-prefix conversion and the parent classifies the nonzero exit. -/
theorem c3_overflow_counterexample :
    (runSharedMem pairCodecL 255 (Behavior.exc (List.replicate 299 0))).res =
      PyResult.interrupt .base 1 := rfl

/-- C3 (amended): with shared-memory capacity `size`, an encoded outcome whose
length needs more than `size_length` bytes makes the child die before writing
anything and the parent raises `Interrupt(1)`; an encoded outcome that fits
the prefix but exceeds the capacity leaves only the length prefix in the
region (never a truncated payload) and the child dies with status 256. -/
theorem c3_overflow_amended (Obj : Type) (P : Codec (Bool × Obj)) (size : Nat)
    (b : Behavior Obj) (p : Bool × Obj) (hp : b.payloadOf = some p) :
    (256 ^ byteLen size ≤ (P.dumps p).length →
      (runSharedMem P size b).res = PyResult.interrupt .base 1) ∧
    (size < (P.dumps p).length → (P.dumps p).length < 256 ^ byteLen size →
      childSharedMem P size b =
        (leBytes (byteLen size) (P.dumps p).length ++ List.replicate size 0, 256)) := by
  constructor
  · intro hov
    have hcs : childSharedMem P size b = (List.replicate (size + byteLen size) 0, 256) := by
      rw [childSharedMem_payload P size b p hp, writeOutcome_overflow P size p hov]
    have h := runSharedMem_of_zero_head P size b 256 hcs
    rw [h]
    have h1 : waitstatus_to_exitcode 256 = 1 := by decide
    have h2 : interruptOf 1 = some (.base, 1) := by decide
    simp [classify, h1, h2]
  · intro h1 h2
    rw [childSharedMem_payload P size b p hp, writeOutcome_partial P size p h1 h2]

/-- C3 (witness): the amended overflow behaviour at capacities 255 and 300. -/
theorem c3_overflow_amended_witness :
    (runSharedMem pairCodecL 255 (Behavior.ret (List.replicate 299 0))).res =
      PyResult.interrupt .base 1 ∧
    childSharedMem pairCodecL 300 (Behavior.ret (List.replicate 310 0)) =
      (leBytes 2 311 ++ List.replicate 300 0, 256) := by
  constructor
  · exact (c3_overflow_amended (List Nat) pairCodecL 255
      (Behavior.ret (List.replicate 299 0)) (false, List.replicate 299 0) rfl).1 (by decide)
  · exact (c3_overflow_amended (List Nat) pairCodecL 300
      (Behavior.ret (List.replicate 310 0)) (false, List.replicate 310 0) rfl).2
      (by decide) (by decide)

/-- C4 (counterexample): the socket transport's wrapper never closes the
socket pair — its `finally` only runs `gc.unfreeze()` — so the claimed
exactly-once release of the Transport resource fails on the socket variant. -/
theorem c4_release_counterexample :
    (runSocket objCodecL (Behavior.ret [])).trace.count Event.sockClose = 0 := rfl

/-- C4 (amended): on every path the shared-memory wrapper unlinks the region
exactly once and balances `gc.freeze` with `gc.unfreeze`; the socket and none
wrappers balance `gc.freeze`/`gc.unfreeze`, but the socket wrapper closes the
socket pair zero times, leaving it to the runtime. -/
theorem c4_release_amended (Obj : Type) (P : Codec (Bool × Obj)) (Q : Codec Obj)
    (size : Nat) (b b2 b3 : Behavior Obj) :
    (runSharedMem P size b).trace.count Event.shmUnlink = 1 ∧
    (runSharedMem P size b).trace.count Event.gcFreeze =
      (runSharedMem P size b).trace.count Event.gcUnfreeze ∧
    (runSocket Q b2).trace.count Event.gcFreeze =
      (runSocket Q b2).trace.count Event.gcUnfreeze ∧
    (runSocket Q b2).trace.count Event.sockClose = 0 ∧
    (runNone b3).trace.count Event.gcFreeze =
      (runNone b3).trace.count Event.gcUnfreeze := by
  refine ⟨?_, ?_, ?_, ?_, ?_⟩
  · rcases runSharedMem_trace P size b with h | h <;> rw [h] <;> rfl
  · rcases runSharedMem_trace P size b with h | h <;> rw [h] <;> rfl
  · rcases runSocket_trace Q b2 with h | h <;> rw [h] <;> rfl
  · rcases runSocket_trace Q b2 with h | h <;> rw [h] <;> rfl
  · rw [runNone_trace]
    rfl

/-- C5 (counterexample): the parent does not gate the payload read on the
exit classification: with capacity 300 and a 350-byte encoded outcome, the
child dies after writing only the prefix (classification `Normal(1)`), yet
the parent still reads and decodes the region because its first byte is
nonzero. -/
theorem c5_payload_gate_counterexample :
    Event.readPayload ∈
      (runSharedMem pairCodecL 300 (Behavior.ret (List.replicate 349 0))).trace ∧
    waitstatus_to_exitcode
      (childSharedMem pairCodecL 300 (Behavior.ret (List.replicate 349 0))).2 = 1 := by
  exact ⟨by decide, by decide⟩

/-- C5 (amended): the parent reads and decodes the payload iff the transport
shows data present — buffer: the region's first byte is nonzero; socket: the
drain returned bytes — and for a child that never reached the transport write
the payload is indeed never consulted and the classification of the raw wait
status is raised directly. -/
theorem c5_payload_gate_amended (Obj : Type) (P : Codec (Bool × Obj)) (Q : Codec Obj)
    (size : Nat) (b : Behavior Obj) :
    (Event.readPayload ∈ (runSharedMem P size b).trace ↔
      (childSharedMem P size b).1.headD 0 ≠ 0) ∧
    (Event.readPayload ∈ (runSocket Q b).trace ↔ (childSocket Q b).1 ≠ []) ∧
    (b.noWrite = true →
      (runSharedMem P size b).res = classify (childSharedMem P size b).2 ∧
      (runSocket Q b).res = classify (childSocket Q b).2 ∧
      Event.readPayload ∉ (runSharedMem P size b).trace ∧
      Event.readPayload ∉ (runSocket Q b).trace) := by
  refine ⟨readPayload_iff_shm P size b, readPayload_iff_sock Q b, fun h => ?_⟩
  obtain ⟨h1, h2⟩ := runSharedMem_noWrite P size b h
  obtain ⟨h3, h4⟩ := runSocket_noWrite Q b h
  exact ⟨h1, h3, h2, h4⟩

/-- C5 (witness): the amended payload gate at a work that calls
`os._exit(5)` under capacity 255. -/
theorem c5_payload_gate_amended_witness :
    (runSharedMem pairCodecL 255 (Behavior.exit 5)).res =
      classify (childSharedMem pairCodecL 255 (Behavior.exit 5)).2 ∧
    Event.readPayload ∉ (runSharedMem pairCodecL 255 (Behavior.exit 5)).trace := by
  have h := (c5_payload_gate_amended (List Nat) pairCodecL objCodecL 255
    (Behavior.exit 5)).2.2 rfl
  exact ⟨h.1, h.2.2.1⟩

/-- C6 (code bug): for every fatal-signal wait status with the core-dump bit
clear, the raised error's message still claims a core dump: the `__str__`
method passes the negative exit code to `os.WCOREDUMP`, whose bit-7 test is
true for every negative value, so the indication is constant for signal
deaths rather than equal to the raw status's core-dump flag.  The message does
contain the resolved signal name and description. -/
theorem c6_coredump_flag_bug (name desc : String) (s : Nat)
    (h1 : 1 ≤ s) (h2 : s < 127) :
    os_WCOREDUMP (s : Int) = false ∧
    signalInterruptStr name desc (waitstatus_to_exitcode s) =
      ((name ++ " caught: ") ++ desc) ++ " (core dumped)" := by
  constructor
  · simp only [os_WCOREDUMP, decide_eq_false_iff_not, not_le]
    omega
  · have he : waitstatus_to_exitcode s = -(s : Int) := by
      have h := waitstatus_signaled s false h1 (by omega)
      simpa using h
    rw [he]
    unfold signalInterruptStr
    rw [if_pos]
    simp only [os_WCOREDUMP, decide_eq_true_eq]
    omega

/-- C6 (witness): status 11 — killed by SIGSEGV, raw core-dump bit clear —
still produces a message ending in " (core dumped)". -/
theorem c6_coredump_flag_bug_witness :
    os_WCOREDUMP ((11 : Nat) : Int) = false ∧
    signalInterruptStr "SIGSEGV" "Segmentation fault" (waitstatus_to_exitcode 11) =
      (("SIGSEGV" ++ " caught: ") ++ "Segmentation fault") ++ " (core dumped)" :=
  c6_coredump_flag_bug "SIGSEGV" "Segmentation fault" 11 (by decide) (by decide)

/-- C7: `_interrupt` on the exit code decoded from a fatal-signal wait status
yields a `SignalInterrupt` carrying the negated signal number as its
`exit_code` (from which `__str__` recovers the signal number), and yields the
distinct `SegmentationFault` kind exactly for the memory-violation signal. -/
theorem c7_signal_classification (s : Nat) (core : Bool) (h1 : 1 ≤ s) (h2 : s ≤ 126) :
    interruptOf (waitstatus_to_exitcode ((if core then 128 else 0) + s)) =
      some (if s = SIGSEGV then (InterruptKind.segv, -(s : Int))
            else (InterruptKind.signal, -(s : Int))) := by
  rw [waitstatus_signaled s core h1 h2]
  by_cases hs : s = SIGSEGV
  · rw [if_pos hs, hs]
    simpa [SIGSEGV] using interruptOf_segv
  · rw [if_neg hs]
    exact interruptOf_sig s h1 (by simpa [SIGSEGV] using hs)

/-- C7 (witness): status 11 (SIGSEGV, no core bit) classifies as
`SegmentationFault`; status 137 (SIGKILL 9 with core bit) classifies as
`SignalInterrupt` with exit code -9. -/
theorem c7_signal_classification_witness :
    interruptOf (waitstatus_to_exitcode ((if false then 128 else 0) + 11)) =
      some (if 11 = SIGSEGV then (InterruptKind.segv, -((11 : Nat) : Int))
            else (InterruptKind.signal, -((11 : Nat) : Int))) ∧
    interruptOf (waitstatus_to_exitcode ((if true then 128 else 0) + 9)) =
      some (if 9 = SIGSEGV then (InterruptKind.segv, -((9 : Nat) : Int))
            else (InterruptKind.signal, -((9 : Nat) : Int))) :=
  ⟨c7_signal_classification 11 false (by decide) (by decide),
   c7_signal_classification 9 true (by decide) (by decide)⟩

/-- C8: a work that terminates the child directly with exit code `N`
(0 < N < 128) without writing a payload makes the call raise `Interrupt`
carrying exactly `N`, under all three transport variants. -/
theorem c8_nonzero_exit (Obj : Type) (P : Codec (Bool × Obj)) (Q : Codec Obj)
    (size N : Nat) (h1 : 0 < N) (h2 : N < 128) :
    (runSharedMem P size (Behavior.exit N)).res = PyResult.interrupt .base (N : Int) ∧
    (runSocket Q (Behavior.exit N)).res = PyResult.interrupt .base (N : Int) ∧
    (runNone (Behavior.exit N : Behavior Obj)).res = PyResult.interrupt .base (N : Int) := by
  have hec : waitstatus_to_exitcode (256 * (N % 256)) = (N : Int) := by
    rw [Nat.mod_eq_of_lt (by omega)]
    exact waitstatus_exited N (by omega)
  have hio : interruptOf (N : Int) = some (.base, (N : Int)) := interruptOf_pos N h1
  have hcl : (classify (256 * (N % 256)) : PyResult Obj) = PyResult.interrupt .base (N : Int) := by
    unfold classify
    rw [hec, hio]
  refine ⟨?_, ?_, ?_⟩
  · rw [(runSharedMem_noWrite P size (Behavior.exit N) rfl).1]
    exact hcl
  · rw [(runSocket_noWrite Q (Behavior.exit N) rfl).1]
    exact hcl
  · simp only [runNone]
    rw [hec, if_pos (by omega : (N : Int) ≠ 0), hio]

/-- C8 (witness): `os._exit(3)` yields `Interrupt(3)` under all three
transports. -/
theorem c8_nonzero_exit_witness :
    (runSharedMem pairCodecL 255 (Behavior.exit 3)).res = PyResult.interrupt .base 3 ∧
    (runSocket objCodecL (Behavior.exit 3)).res = PyResult.interrupt .base 3 ∧
    (runNone (Behavior.exit 3 : Behavior (List Nat))).res = PyResult.interrupt .base 3 :=
  c8_nonzero_exit (List Nat) pairCodecL objCodecL 255 3 (by decide) (by decide)

/-- C9: in the socket wrapper, the blocking wait for child termination
strictly precedes the non-blocking drain in every execution's trace, and when
the drain returned bytes the first byte is the outcome flag (nonzero means
re-raise) while the remaining bytes are the payload handed to the decoder. -/
theorem c9_drain_after_wait (Obj : Type) (Q : Codec Obj) (b : Behavior Obj) :
    (∃ l₁ l₂ : List Event,
      (runSocket Q b).trace = l₁ ++ Event.waitChild :: l₂ ∧
      Event.recvDrain ∉ l₁ ∧ Event.recvDrain ∈ l₂) ∧
    (∀ f : Nat, ∀ rest : List Nat, (childSocket Q b).1 = f :: rest →
      ((∀ o : Obj, Q.loads rest = some o →
        (runSocket Q b).res = if f ≠ 0 then PyResult.raised o else PyResult.value o) ∧
       (Q.loads rest = none → (runSocket Q b).res = PyResult.unpickleError))) := by
  constructor
  · rcases runSocket_trace Q b with h | h
    · exact ⟨[Event.sockCreate, .gcFreeze, .forkChild], [.recvDrain, .gcUnfreeze],
        by rw [h]; rfl, by simp, by simp⟩
    · exact ⟨[Event.sockCreate, .gcFreeze, .forkChild],
        [.recvDrain, .readPayload, .gcUnfreeze], by rw [h]; rfl, by simp, by simp⟩
  · intro f rest hfr
    constructor
    · intro o ho
      simp only [runSocket]
      rw [hfr]
      simp [ho]
    · intro ho
      simp only [runSocket]
      rw [hfr]
      simp [ho]

/-- C9 (witness): a work returning `[7]` under the socket transport — the
drain yields flag 0 and payload `[7]`, decoded to the returned value. -/
theorem c9_drain_after_wait_witness :
    (∃ l₁ l₂ : List Event,
      (runSocket objCodecL (Behavior.ret [7])).trace = l₁ ++ Event.waitChild :: l₂ ∧
      Event.recvDrain ∉ l₁ ∧ Event.recvDrain ∈ l₂) ∧
    (runSocket objCodecL (Behavior.ret [7])).res = PyResult.value [7] := by
  have h := c9_drain_after_wait (List Nat) objCodecL (Behavior.ret [7])
  refine ⟨h.1, ?_⟩
  have h2 := (h.2 0 [7] rfl).1 [7] rfl
  simpa using h2

/-- C10 (counterexample): a `BaseException` carrying a zero exit status
(`SystemExit(0)`-like) makes the child die with status 0: under the `none`
transport the wrapper then returns `None` normally — no classified
non-zero-exit error is raised — and under the buffer transport the parent
raises `RuntimeError` instead. -/
theorem c10_base_exception_counterexample :
    (runNone (Behavior.baseExc 0 : Behavior (List Nat))).res = PyResult.noneRet ∧
    (runSharedMem pairCodecL 255 (Behavior.baseExc 0)).res = PyResult.runtimeError := by
  exact ⟨rfl, rfl⟩

/-- C10 (amended): a `BaseException` outside `Exception` is never
re-materialized: when its propagation ends the child with non-zero status `n`
every transport raises `Interrupt(n)`; when it ends the child with status 0,
the buffer and socket wrappers raise `RuntimeError` and the none wrapper
returns `None`. -/
theorem c10_base_exception_amended (Obj : Type) (P : Codec (Bool × Obj)) (Q : Codec Obj)
    (size n : Nat) (h1 : 0 < n) (h2 : n < 256) :
    (runSharedMem P size (Behavior.baseExc n)).res = PyResult.interrupt .base (n : Int) ∧
    (runSocket Q (Behavior.baseExc n)).res = PyResult.interrupt .base (n : Int) ∧
    (runNone (Behavior.baseExc n : Behavior Obj)).res = PyResult.interrupt .base (n : Int) ∧
    (runSharedMem P size (Behavior.baseExc 0)).res = PyResult.runtimeError ∧
    (runSocket Q (Behavior.baseExc 0)).res = PyResult.runtimeError ∧
    (runNone (Behavior.baseExc 0 : Behavior Obj)).res = PyResult.noneRet := by
  have hec : waitstatus_to_exitcode (256 * (n % 256)) = (n : Int) := by
    rw [Nat.mod_eq_of_lt (by omega)]
    exact waitstatus_exited n (by omega)
  have hio : interruptOf (n : Int) = some (.base, (n : Int)) := interruptOf_pos n h1
  have hcl : (classify (256 * (n % 256)) : PyResult Obj) = PyResult.interrupt .base (n : Int) := by
    unfold classify
    rw [hec, hio]
  have hz : (classify (256 * (0 % 256)) : PyResult Obj) = PyResult.runtimeError := by
    unfold classify
    rw [show waitstatus_to_exitcode (256 * (0 % 256)) = 0 from by decide]
    rw [show interruptOf 0 = none from by decide]
  refine ⟨?_, ?_, ?_, ?_, ?_, ?_⟩
  · rw [(runSharedMem_noWrite P size (Behavior.baseExc n) rfl).1]
    exact hcl
  · rw [(runSocket_noWrite Q (Behavior.baseExc n) rfl).1]
    exact hcl
  · simp only [runNone]
    rw [hec, if_pos (by omega : (n : Int) ≠ 0), hio]
  · rw [(runSharedMem_noWrite P size (Behavior.baseExc 0) rfl).1]
    exact hz
  · rw [(runSocket_noWrite Q (Behavior.baseExc 0) rfl).1]
    exact hz
  · simp only [runNone]
    rw [show waitstatus_to_exitcode (256 * (0 % 256)) = 0 from by decide]
    simp

/-- C10 (witness): a `SystemExit(5)`-like `BaseException` yields `Interrupt(5)`
under the `none` transport. -/
theorem c10_base_exception_amended_witness :
    (runNone (Behavior.baseExc 5 : Behavior (List Nat))).res = PyResult.interrupt .base 5 :=
  (c10_base_exception_amended (List Nat) pairCodecL objCodecL 255 5
    (by decide) (by decide)).2.2.1

end Faultless
